import Mathlib

/-!
Shallow embedding of the book-summarization script (main.py): the retry
wrapper ask_chat, the response-interpretation helpers, and the main
pipeline, together with theorems settling the specification claims.
-/

/-- Failure signal raised by one remote completion call: either the
rate-limit signal (RateLimitError) or an API error carrying an optional
HTTP status (APIError with attribute http_status, possibly absent). -/
inductive Fault where
  | rateLimit
  | apiError (httpStatus : Option Nat)
deriving Repr, DecidableEq

/-- Classification used by ask_chat: a fault is retried (transient) when it
is the rate-limit signal, or an API error whose status is present, truthy,
and in the 5xx range; every other fault is re-raised. -/
def isTransient : Fault → Bool
  | Fault.rateLimit => true
  | Fault.apiError (some s) => decide (500 ≤ s) && decide (s < 600)
  | Fault.apiError none => false

/-- Outcome of one attempt of the remote completion call: a successful
response carrying raw text and a token count, or a fault. -/
inductive CallOutcome where
  | ok (text : String) (tokens : Nat)
  | err (f : Fault)
deriving Repr, DecidableEq

/-- List-level model of Python str.strip: drop ASCII whitespace from both
ends of the character list. -/
def stripChars (l : List Char) : List Char :=
  ((l.dropWhile Char.isWhitespace).reverse.dropWhile Char.isWhitespace).reverse

/-- Model of Python str.strip on strings. -/
def pyStrip (s : String) : String := String.mk (stripChars s.data)

/-- Model of Python str.lower (ASCII case folding). -/
def pyLower (s : String) : String := String.mk (s.data.map Char.toLower)

/-- Recursive core of ask_chat: given the current backoff value and the
scripted outcomes of the successive remote attempts, return the final
result (success text stripped, or the propagated fatal fault) together
with the list of sleep durations performed, or none when the outcome
script is exhausted while the loop would still be retrying. -/
def askChatGo : Nat → List CallOutcome → Option (Except Fault (String × Nat) × List Nat)
  | _, [] => none
  | _, CallOutcome.ok t tok :: _ => some (Except.ok (pyStrip t, tok), [])
  | b, CallOutcome.err f :: rest =>
    if isTransient f then
      match askChatGo (min (b * 2) 60) rest with
      | none => none
      | some (res, sleeps) => some (res, b :: sleeps)
    else some (Except.error f, [])

/-- Model of ask_chat: the retry loop starts with backoff = 1. -/
def ask_chat (outcomes : List CallOutcome) : Option (Except Fault (String × Nat) × List Nat) :=
  askChatGo 1 outcomes

/-- Predicate: the outcome is a fault that ask_chat retries. -/
def isTransientOutcome : CallOutcome → Bool
  | CallOutcome.ok _ _ => false
  | CallOutcome.err f => isTransient f

/-- Result delivered by a resolving (non-transient) outcome: the stripped
success text with its token count, or the propagated fault. -/
def resultOf : CallOutcome → Except Fault (String × Nat)
  | CallOutcome.ok t tok => Except.ok (pyStrip t, tok)
  | CallOutcome.err f => Except.error f

/-- Modelled from the spec: the first outcome in the script that is not a
transient fault determines the result of the logical request; none when
every scripted outcome is transient. Used to compare ask_chat against the
never-silently-drops guarantee. -/
def specFirstResolution : List CallOutcome → Option (Except Fault (String × Nat))
  | [] => none
  | o :: rest =>
    if isTransientOutcome o then specFirstResolution rest else some (resultOf o)

/-- Backoff durations slept over k consecutive transient faults when the
delay enters at b: b, then min (b*2) 60, and so on. -/
def backoffSeq (b : Nat) : Nat → List Nat
  | 0 => []
  | k + 1 => b :: backoffSeq (min (b * 2) 60) k

-- Basic lemmas about the retry loop.

theorem min_double_cap (i : Nat) : min (min (2 ^ i) 60 * 2) 60 = min (2 ^ (i + 1)) 60 := by
  rcases le_or_lt (2 ^ i) 60 with h | h
  · have h2 : 2 ^ (i + 1) = 2 ^ i * 2 := by rw [pow_succ]
    rw [Nat.min_eq_left h, h2]
  · have h2 : 60 < 2 ^ (i + 1) := lt_of_lt_of_le h (Nat.pow_le_pow_right (by omega) (by omega))
    rw [Nat.min_eq_right (le_of_lt h)]
    omega

theorem backoffSeq_pow (k : Nat) : ∀ i : Nat,
    backoffSeq (min (2 ^ i) 60) k = (List.range k).map (fun j => min (2 ^ (i + j)) 60) := by
  induction k with
  | zero => intro i; simp [backoffSeq]
  | succ k ih =>
    intro i
    have step : backoffSeq (min (2 ^ i) 60) (k + 1)
        = min (2 ^ i) 60 :: backoffSeq (min (2 ^ (i + 1)) 60) k := by
      rw [backoffSeq, min_double_cap]
    rw [step, ih (i + 1), List.range_succ_eq_map, List.map_cons, List.map_map]
    have hfun : ((fun j => min (2 ^ (i + j)) 60) ∘ Nat.succ)
        = (fun j => min (2 ^ (i + 1 + j)) 60) := by
      funext j
      simp only [Function.comp]
      have : i + Nat.succ j = i + 1 + j := by omega
      rw [this]
    rw [hfun]
    simp

theorem askChatGo_transient_run (t : String) (tok : Nat) (rest : List CallOutcome) :
    ∀ (fs : List Fault), (∀ f ∈ fs, isTransient f = true) → ∀ b : Nat,
    askChatGo b (fs.map CallOutcome.err ++ CallOutcome.ok t tok :: rest)
      = some (Except.ok (pyStrip t, tok), backoffSeq b fs.length) := by
  intro fs
  induction fs with
  | nil => intro _ b; simp [askChatGo, backoffSeq]
  | cons f fs ih =>
    intro h b
    have hf : isTransient f = true := h f (List.mem_cons_self f fs)
    have hrest : ∀ g ∈ fs, isTransient g = true := fun g hg => h g (List.mem_cons_of_mem f hg)
    simp only [List.map_cons, List.cons_append, askChatGo, hf, if_true, List.append_eq]
    rw [ih hrest (min (b * 2) 60)]
    simp [backoffSeq]

/-- Claim C1: for every sequence of k transient faults followed by a
success, ask_chat returns the stripped success text after exactly k
backoff sleeps, the j-th sleep lasting min (2 ^ (j - 1)) 60 seconds
(1, 2, 4, ..., capped at 60), the delay starting from 1 on each call. -/
theorem ask_chat_transient_backoff (fs : List Fault)
    (h : ∀ f ∈ fs, isTransient f = true) (t : String) (tok : Nat) (rest : List CallOutcome) :
    ask_chat (fs.map CallOutcome.err ++ CallOutcome.ok t tok :: rest)
      = some (Except.ok (pyStrip t, tok),
          (List.range fs.length).map (fun j => min (2 ^ j) 60)) := by
  have h1 : (1 : Nat) = min (2 ^ 0) 60 := by decide
  rw [ask_chat, askChatGo_transient_run t tok rest fs h 1, h1,
    backoffSeq_pow fs.length 0]
  simp

/-- Witness for C1: two transient faults (a rate limit, then a 503) and a
success produce the success text after sleeps of 1 and 2 seconds. -/
theorem ask_chat_transient_backoff_witness :
    ask_chat ([Fault.rateLimit, Fault.apiError (some 503)].map CallOutcome.err
        ++ CallOutcome.ok " done " 7 :: [])
      = some (Except.ok (pyStrip " done ", 7),
          (List.range ([Fault.rateLimit, Fault.apiError (some 503)] : List Fault).length).map
            (fun j => min (2 ^ j) 60)) :=
  ask_chat_transient_backoff [Fault.rateLimit, Fault.apiError (some 503)]
    (by decide) " done " 7 []

/-- Claim C2: a fault that is neither a rate-limit signal nor a 5xx server
fault is propagated immediately by ask_chat as a fatal error, with zero
retries and zero backoff sleeps, whatever would have come next. -/
theorem ask_chat_fatal_propagates (f : Fault) (h : isTransient f = false)
    (rest : List CallOutcome) :
    ask_chat (CallOutcome.err f :: rest) = some (Except.error f, []) := by
  simp [ask_chat, askChatGo, h]

/-- Witness for C2: an auth-style 401 API error is propagated at once. -/
theorem ask_chat_fatal_propagates_witness :
    ask_chat (CallOutcome.err (Fault.apiError (some 401)) :: []) =
      some (Except.error (Fault.apiError (some 401)), []) :=
  ask_chat_fatal_propagates (Fault.apiError (some 401)) (by decide) []

/-- Claim C8: ask_chat never silently drops a request: it returns no
result exactly on those outcome scripts whose every element is a transient
fault (the indefinite-retry case), and whenever a success or fatal fault
is eventually reached, it terminates with exactly that outcome. -/
theorem ask_chat_never_drops (outcomes : List CallOutcome) :
    (ask_chat outcomes).map Prod.fst = specFirstResolution outcomes := by
  rw [ask_chat]
  generalize 1 = b
  induction outcomes generalizing b with
  | nil => simp [askChatGo, specFirstResolution]
  | cons o rest ih =>
    cases o with
    | ok t tok => simp [askChatGo, specFirstResolution, isTransientOutcome, resultOf]
    | err f =>
      by_cases hf : isTransient f = true
      · simp only [askChatGo, hf, if_true, specFirstResolution, isTransientOutcome]
        rw [← ih (min (b * 2) 60)]
        cases hres : askChatGo (min (b * 2) 60) rest with
        | none => simp
        | some p => cases p; simp
      · simp only [Bool.not_eq_true] at hf
        simp [askChatGo, hf, specFirstResolution, isTransientOutcome, resultOf]

-- Response interpretation helpers (main.py, steps 3 to 5).

/-- Decide whether needle occurs as a contiguous sublist of hay, at any
position: the model of the Python containment test "no" in text. -/
def hasSubstr (needle : List Char) : List Char → Bool
  | [] => needle.isEmpty
  | c :: rest => needle.isPrefixOf (c :: rest) || hasSubstr needle rest

/-- First contiguous run of decimal digits in a character list: the model
of re.search applied to a digit-run pattern. None when no digit occurs. -/
def firstDigitRun : List Char → Option (List Char)
  | [] => none
  | c :: rest =>
    if c.isDigit then some (c :: rest.takeWhile Char.isDigit) else firstDigitRun rest

/-- Decimal value of a digit list: the model of int applied to the match. -/
def digitsToNat (l : List Char) : Nat :=
  l.foldl (fun a c => a * 10 + (c.toNat - 48)) 0

/-- Model of the chapter-count extraction in main.py: search the reply for
the first digit run and parse it; error when no digit occurs. -/
def extractChapterCount (s : String) : Option Nat :=
  (firstDigitRun s.data).map digitsToNat

-- The pipeline (main.py, function main).

/-- One logical chat request as issued by main: the user prompt and the
system message. -/
structure Request where
  prompt : String
  system : String
deriving Repr, DecidableEq

/-- Default system message of ask_chat. -/
def defaultSystem : String := "You are a helpful assistant."

/-- System message of the detailed per-chapter summary request. -/
def summarySystem : String := "You are an expert Hebrew-language summarizer."

/-- Existence-check request issued in step 3 of main. -/
def knowsRequest (title : String) : Request :=
  ⟨"Do you know the book titled “" ++ title ++ "”? Please answer simply yes or no.",
    defaultSystem⟩

/-- Rights-check request issued after the existence check. -/
def rightsRequest (title : String) : Request :=
  ⟨"Can you summarize the book “" ++ title
      ++ "”? Please answer with \x27yes\x27 or \x27no\x27.", defaultSystem⟩

/-- Chapter-count request issued in step 4 of main. -/
def countRequest (title : String) : Request :=
  ⟨"How many chapters are in the book “" ++ title
      ++ "”? Please respond **only** with a whole number (e.g., 24), without additional text.",
    defaultSystem⟩

/-- One-line chapter-title request issued at the top of each loop pass. -/
def titleRequest (title : String) (i : Nat) : Request :=
  ⟨"Summarize in Hebrew chapter number " ++ toString i ++ " from the book “"
      ++ title ++ "” in one line.", defaultSystem⟩

/-- Detailed chapter-summary request, with the summarizer persona. -/
def summaryRequest (title : String) (i : Nat) : Request :=
  ⟨"Summarize in Hebrew, as detailed and comprehensive as possible, chapter number "
      ++ toString i ++ " from the book “" ++ title
      ++ "”. Include specific examples from the text, analysis of key points, and additional elaborations to clarify every concept or idea until the final summary.",
    summarySystem⟩

/-- Entry of the summaries list built by the loop: chapter number, chapter
title, summary text, and the summary token count. -/
structure ChapterRecord where
  index : Nat
  title : String
  body : String
  tokens : Nat
deriving Repr, DecidableEq

/-- Content of the output artifact: the book title and the ordered list of
chapter records serialized into the file. -/
structure Report where
  bookTitle : String
  chapters : List ChapterRecord
deriving Repr, DecidableEq

/-- Result of one scripted logical request seen by main: ask_chat either
returns stripped text with tokens or propagates a fault. -/
abbrev Response := Except Fault (String × Nat)

/-- Reason a pipeline stage stops consuming responses: a propagated fault,
or exhaustion of the scripted response list (a model artifact standing for
a request whose behaviour is unspecified). -/
inductive StepFail where
  | fault (f : Fault)
  | exhausted
deriving Repr, DecidableEq

/-- Consume one scripted response: a success delivers its stripped text,
as ask_chat strips each reply before returning it. -/
def takeResp : List Response → Except StepFail ((String × Nat) × List Response)
  | [] => Except.error StepFail.exhausted
  | Except.error f :: _ => Except.error (StepFail.fault f)
  | Except.ok (t, tok) :: rest => Except.ok ((pyStrip t, tok), rest)

/-- Terminal outcome of one pipeline run. -/
inductive RunResult where
  | exitedUnknownBook
  | exitedRightsIssue
  | fatalFault (f : Fault)
  | parseError (reply : String) (tokens : Nat)
  | done (report : Report) (totalTokens : Nat)
  | exhausted
deriving Repr, DecidableEq

/-- Map a stage failure to the run outcome. -/
def failOf : StepFail → RunResult
  | StepFail.fault f => RunResult.fatalFault f
  | StepFail.exhausted => RunResult.exhausted

/-- Outcome of the per-chapter loop. -/
inductive LoopResult where
  | ok (records : List ChapterRecord) (totalTokens : Nat)
  | fatal (f : Fault)
  | exhausted
deriving Repr, DecidableEq

/-- Per-chapter loop of main (step 5): for each chapter index, request the
one-line title, then the detailed summary with the summarizer persona,
append the record (whose token field is the summary tokens only), and add
both token counts to the running total. The second component is the list
of chat requests issued by the loop. -/
def chapterLoop (bookTitle : String) :
    Nat → Nat → List Response → Nat → List ChapterRecord → LoopResult × List Request
  | _, 0, _, tt, acc => (LoopResult.ok acc tt, [])
  | i, k + 1, rs, tt, acc =>
    match takeResp rs with
    | Except.error StepFail.exhausted => (LoopResult.exhausted, [titleRequest bookTitle i])
    | Except.error (StepFail.fault f) => (LoopResult.fatal f, [titleRequest bookTitle i])
    | Except.ok ((tTxt, tTok), rest) =>
      match takeResp rest with
      | Except.error StepFail.exhausted =>
          (LoopResult.exhausted, [titleRequest bookTitle i, summaryRequest bookTitle i])
      | Except.error (StepFail.fault f) =>
          (LoopResult.fatal f, [titleRequest bookTitle i, summaryRequest bookTitle i])
      | Except.ok ((bTxt, bTok), rest2) =>
        ((chapterLoop bookTitle (i + 1) k rest2 (tt + tTok + bTok)
            (acc ++ [⟨i, tTxt, bTxt, bTok⟩])).fst,
          titleRequest bookTitle i :: summaryRequest bookTitle i ::
            (chapterLoop bookTitle (i + 1) k rest2 (tt + tTok + bTok)
              (acc ++ [⟨i, tTxt, bTxt, bTok⟩])).snd)

/-- Stage that runs the chapter loop from index 1 and packages its outcome:
on success the report is written with the accumulated records. -/
def loopStage (bookTitle : String) (n : Nat) (tt : Nat) (rs : List Response) :
    RunResult × List Request :=
  match chapterLoop bookTitle 1 n rs tt [] with
  | (LoopResult.ok recs ttf, reqs) => (RunResult.done ⟨bookTitle, recs⟩ ttf, reqs)
  | (LoopResult.fatal f, reqs) => (RunResult.fatalFault f, reqs)
  | (LoopResult.exhausted, reqs) => (RunResult.exhausted, reqs)

/-- Stage 4 of main: request the chapter count, extract the first number
from the reply, raise a parse error when none occurs. The reply tokens are
not added to the running total, faithfully to main.py. -/
def countStage (bookTitle : String) (tt : Nat) (rs : List Response) :
    RunResult × List Request :=
  match takeResp rs with
  | Except.error e => (failOf e, [countRequest bookTitle])
  | Except.ok ((cText, cTok), rest) =>
    match extractChapterCount cText with
    | none => (RunResult.parseError cText cTok, [countRequest bookTitle])
    | some n =>
      ((loopStage bookTitle n tt rest).fst,
        countRequest bookTitle :: (loopStage bookTitle n tt rest).snd)

/-- Rights-check stage of main: exit with the rights issue when the token
no occurs anywhere in the lowercased stripped reply; otherwise add the
reply tokens and continue with the count stage. -/
def rightsStage (bookTitle : String) (kTok : Nat) (rs : List Response) :
    RunResult × List Request :=
  match takeResp rs with
  | Except.error e => (failOf e, [rightsRequest bookTitle])
  | Except.ok ((rText, rTok), rest) =>
    if hasSubstr "no".data (pyLower rText).data then
      (RunResult.exitedRightsIssue, [rightsRequest bookTitle])
    else
      ((countStage bookTitle (kTok + rTok) rest).fst,
        rightsRequest bookTitle :: (countStage bookTitle (kTok + rTok) rest).snd)

/-- Model of main: the pipeline over a book title and the scripted results
of the successive logical requests, returning the terminal outcome and the
list of chat requests issued. The existence check exits when the
lowercased stripped reply starts with no; otherwise its tokens join the
total and the rights stage follows. -/
def mainRun (bookTitle : String) (rs : List Response) : RunResult × List Request :=
  match takeResp rs with
  | Except.error e => (failOf e, [knowsRequest bookTitle])
  | Except.ok ((kText, kTok), rest) =>
    if List.isPrefixOf "no".data (pyLower kText).data then
      (RunResult.exitedUnknownBook, [knowsRequest bookTitle])
    else
      ((rightsStage bookTitle kTok rest).fst,
        knowsRequest bookTitle :: (rightsStage bookTitle kTok rest).snd)

/-- Filename sanitization of main.py step 6: keep alphanumeric characters,
the space, the underscore and the hyphen; replace every other character
with an underscore. -/
def sanitize (t : String) : String :=
  String.mk (t.data.map (fun c =>
    if c.isAlphanum || c = ' ' || c = '_' || c = '-' then c else '_'))

/-- Output path derived from the book title. -/
def outPath (t : String) : String := sanitize t ++ "_summaries.txt"

/-- Report files written by a finished run: exactly one on the done path,
none otherwise, as main opens the output file only after the loop. -/
def filesWritten : RunResult → List Report
  | RunResult.done rep _ => [rep]
  | _ => []

/-- Delimiter-plus-body block emitted for one chapter record. -/
def chapterBlock (r : ChapterRecord) : String :=
  "=== Chapter " ++ toString r.index ++ ": " ++ r.title ++ " (Tokens: "
    ++ toString r.tokens ++ ") ===\n" ++ r.body ++ "\n\n"

/-- Full text of the report file, parameterized by the timestamp string. -/
def reportText (timestamp : String) (rep : Report) : String :=
  "Summaries of “" ++ rep.bookTitle ++ "”\nCreated on " ++ timestamp ++ "\n\n"
    ++ String.join (rep.chapters.map chapterBlock)

-- Scripted per-chapter successes and the records and requests they yield.

/-- Scripted responses for a run of fully successful chapters: for each
chapter a title reply then a summary reply. -/
def pairsToResponses : List ((String × Nat) × (String × Nat)) → List Response
  | [] => []
  | (a, b) :: rest => Except.ok a :: Except.ok b :: pairsToResponses rest

/-- Chapter records produced from scripted successes starting at index i:
the record stores the stripped title, the stripped summary, and the
summary token count only. -/
def chapterRecordsOf (i : Nat) : List ((String × Nat) × (String × Nat)) → List ChapterRecord
  | [] => []
  | (a, b) :: rest => ⟨i, pyStrip a.fst, pyStrip b.fst, b.snd⟩ :: chapterRecordsOf (i + 1) rest

/-- Requests issued by k successful loop passes starting at index i. -/
def chapterRequests (bookTitle : String) (i : Nat) : Nat → List Request
  | 0 => []
  | k + 1 => titleRequest bookTitle i :: summaryRequest bookTitle i
      :: chapterRequests bookTitle (i + 1) k

/-- Tokens added to the session total by the scripted chapters: title plus
summary tokens of each chapter. -/
def pairTokens : List ((String × Nat) × (String × Nat)) → Nat
  | [] => 0
  | (a, b) :: rest => a.snd + b.snd + pairTokens rest

theorem chapterRecordsOf_index (bodies : List ((String × Nat) × (String × Nat))) :
    ∀ i : Nat, (chapterRecordsOf i bodies).map (fun r => r.index)
      = List.range' i bodies.length := by
  induction bodies with
  | nil => intro i; simp [chapterRecordsOf]
  | cons p rest ih =>
    intro i
    obtain ⟨a, b⟩ := p
    simp only [chapterRecordsOf, List.map_cons, List.length_cons, List.range'_succ, ih (i + 1)]

theorem chapterRecordsOf_tokens (bodies : List ((String × Nat) × (String × Nat))) :
    ∀ i : Nat, (chapterRecordsOf i bodies).map (fun r => r.tokens)
      = bodies.map (fun p => p.snd.snd) := by
  induction bodies with
  | nil => intro i; simp [chapterRecordsOf]
  | cons p rest ih =>
    intro i
    obtain ⟨a, b⟩ := p
    simp only [chapterRecordsOf, List.map_cons, ih (i + 1)]

theorem pairTokens_sum (bodies : List ((String × Nat) × (String × Nat))) :
    pairTokens bodies = (bodies.map (fun p => p.fst.snd + p.snd.snd)).sum := by
  induction bodies with
  | nil => simp [pairTokens]
  | cons p rest ih =>
    obtain ⟨a, b⟩ := p
    simp [pairTokens, ih]

theorem chapterLoop_success (bookTitle : String) :
    ∀ (bodies : List ((String × Nat) × (String × Nat))) (i tt : Nat)
      (acc : List ChapterRecord) (extra : List Response),
    chapterLoop bookTitle i bodies.length (pairsToResponses bodies ++ extra) tt acc
      = (LoopResult.ok (acc ++ chapterRecordsOf i bodies) (tt + pairTokens bodies),
          chapterRequests bookTitle i bodies.length) := by
  intro bodies
  induction bodies with
  | nil =>
    intro i tt acc extra
    simp [pairsToResponses, chapterRecordsOf, pairTokens, chapterLoop, chapterRequests]
  | cons p rest ih =>
    intro i tt acc extra
    obtain ⟨⟨tTxt, tTok⟩, ⟨bTxt, bTok⟩⟩ := p
    simp only [pairsToResponses, List.length_cons, List.cons_append, chapterLoop, takeResp]
    rw [ih]
    simp [chapterRecordsOf, chapterRequests, pairTokens, List.append_assoc, Nat.add_assoc]

theorem chapterLoop_ok_index (bookTitle : String) :
    ∀ (k i : Nat) (rs : List Response) (tt : Nat) (acc recs : List ChapterRecord) (ttf : Nat),
    (chapterLoop bookTitle i k rs tt acc).fst = LoopResult.ok recs ttf →
    recs.map (fun r => r.index) = acc.map (fun r => r.index) ++ List.range' i k := by
  intro k
  induction k with
  | zero =>
    intro i rs tt acc recs ttf h
    simp only [chapterLoop] at h
    obtain ⟨rfl, rfl⟩ := LoopResult.ok.inj h
    simp [List.range']
  | succ k ih =>
    intro i rs tt acc recs ttf h
    cases rs with
    | nil => simp [chapterLoop, takeResp] at h
    | cons r rest =>
      cases r with
      | error f => simp [chapterLoop, takeResp] at h
      | ok p =>
        obtain ⟨tTxt, tTok⟩ := p
        cases rest with
        | nil => simp [chapterLoop, takeResp] at h
        | cons r2 rest2 =>
          cases r2 with
          | error f => simp [chapterLoop, takeResp] at h
          | ok q =>
            obtain ⟨bTxt, bTok⟩ := q
            simp only [chapterLoop, takeResp] at h
            have hmap := ih (i + 1) rest2 (tt + tTok + bTok)
              (acc ++ [⟨i, pyStrip tTxt, pyStrip bTxt, bTok⟩]) recs ttf h
            rw [hmap, List.range'_succ]
            simp

-- Shape of the outcomes each stage can produce.

theorem loopStage_fst_ne (t : String) (n tt : Nat) (rs : List Response) :
    (loopStage t n tt rs).fst ≠ RunResult.exitedUnknownBook
    ∧ (loopStage t n tt rs).fst ≠ RunResult.exitedRightsIssue
    ∧ ∀ s toks, (loopStage t n tt rs).fst ≠ RunResult.parseError s toks := by
  rcases hcl : chapterLoop t 1 n rs tt [] with ⟨lr, reqs⟩
  cases lr <;> simp [loopStage, hcl]

theorem countStage_fst_ne (t : String) (tt : Nat) (rs : List Response) :
    (countStage t tt rs).fst ≠ RunResult.exitedUnknownBook
    ∧ (countStage t tt rs).fst ≠ RunResult.exitedRightsIssue := by
  rcases hr : takeResp rs with e | ⟨⟨cText, cTok⟩, rest⟩
  · cases e <;> simp [countStage, hr, failOf]
  · rcases hx : extractChapterCount cText with _ | n
    · simp [countStage, hr, hx]
    · have hl := loopStage_fst_ne t n tt rest
      simp only [countStage, hr, hx]
      exact ⟨hl.1, hl.2.1⟩

theorem rightsStage_fst_ne (t : String) (kTok : Nat) (rs : List Response) :
    (rightsStage t kTok rs).fst ≠ RunResult.exitedUnknownBook := by
  rcases hr : takeResp rs with e | ⟨⟨rText, rTok⟩, rest⟩
  · cases e <;> simp [rightsStage, hr, failOf]
  · by_cases hno : hasSubstr "no".data (pyLower rText).data = true
    · simp [rightsStage, hr, hno]
    · simp only [rightsStage, hr, Bool.not_eq_true] at hno ⊢
      rw [hno]
      simp only [Bool.false_eq_true, if_false]
      exact (countStage_fst_ne t (kTok + rTok) rest).1

/-- Claim C5: with a successful existence-check reply, the run terminates
in the unknown-book state exactly when the stripped, lowercased reply
starts with the token no; in that case the run writes no file and issues
no request beyond the existence check. -/
theorem existence_gate (title kText : String) (kTok : Nat) (rest : List Response) :
    ((mainRun title (Except.ok (kText, kTok) :: rest)).fst = RunResult.exitedUnknownBook
      ↔ List.isPrefixOf "no".data (pyLower (pyStrip kText)).data = true)
    ∧ (List.isPrefixOf "no".data (pyLower (pyStrip kText)).data = true →
        mainRun title (Except.ok (kText, kTok) :: rest)
          = (RunResult.exitedUnknownBook, [knowsRequest title])
        ∧ filesWritten (mainRun title (Except.ok (kText, kTok) :: rest)).fst = []) := by
  by_cases hno : List.isPrefixOf "no".data (pyLower (pyStrip kText)).data = true
  · constructor
    · simp [mainRun, takeResp, hno]
    · intro _
      constructor <;> simp [mainRun, takeResp, hno, filesWritten]
  · simp only [Bool.not_eq_true] at hno
    constructor
    · rw [show mainRun title (Except.ok (kText, kTok) :: rest)
          = ((rightsStage title kTok rest).fst,
              knowsRequest title :: (rightsStage title kTok rest).snd) by
        simp [mainRun, takeResp, hno]]
      simp only [hno, Bool.false_eq_true, iff_false]
      exact rightsStage_fst_ne title kTok rest
    · intro hcontra
      rw [hno] at hcontra
      exact absurd hcontra (by simp)

/-- Claim C6: with an affirmative existence check and a successful
rights-check reply, the run terminates in the rights-issue state exactly
when the token no occurs anywhere in the stripped, lowercased rights
reply — not only as a leading token; in that case no file is written and
no request beyond the rights check is issued. -/
theorem rights_gate (title kText rText : String) (kTok rTok : Nat) (rest : List Response)
    (hk : List.isPrefixOf "no".data (pyLower (pyStrip kText)).data = false) :
    ((mainRun title (Except.ok (kText, kTok) :: Except.ok (rText, rTok) :: rest)).fst
        = RunResult.exitedRightsIssue
      ↔ hasSubstr "no".data (pyLower (pyStrip rText)).data = true)
    ∧ (hasSubstr "no".data (pyLower (pyStrip rText)).data = true →
        mainRun title (Except.ok (kText, kTok) :: Except.ok (rText, rTok) :: rest)
          = (RunResult.exitedRightsIssue, [knowsRequest title, rightsRequest title])
        ∧ filesWritten (mainRun title
            (Except.ok (kText, kTok) :: Except.ok (rText, rTok) :: rest)).fst = []) := by
  have hmain : mainRun title (Except.ok (kText, kTok) :: Except.ok (rText, rTok) :: rest)
      = ((rightsStage title kTok (Except.ok (rText, rTok) :: rest)).fst,
          knowsRequest title :: (rightsStage title kTok (Except.ok (rText, rTok) :: rest)).snd) := by
    simp [mainRun, takeResp, hk]
  by_cases hno : hasSubstr "no".data (pyLower (pyStrip rText)).data = true
  · have hstage : rightsStage title kTok (Except.ok (rText, rTok) :: rest)
        = (RunResult.exitedRightsIssue, [rightsRequest title]) := by
      simp [rightsStage, takeResp, hno]
    rw [hmain, hstage]
    constructor
    · simp [hno]
    · intro _
      constructor
      · rfl
      · rfl
  · simp only [Bool.not_eq_true] at hno
    have hstage : rightsStage title kTok (Except.ok (rText, rTok) :: rest)
        = ((countStage title (kTok + rTok) rest).fst,
            rightsRequest title :: (countStage title (kTok + rTok) rest).snd) := by
      simp [rightsStage, takeResp, hno]
    rw [hmain, hstage]
    constructor
    · simp only [hno, Bool.false_eq_true, iff_false]
      exact (countStage_fst_ne title (kTok + rTok) rest).2
    · intro hcontra
      rw [hno] at hcontra
      exact absurd hcontra (by simp)

/-- Witness for C5: a reply No, unfamiliar terminates the run unknown. -/
theorem existence_gate_witness :
    (mainRun "B" (Except.ok (" No, unfamiliar ", 3) :: [])).fst
      = RunResult.exitedUnknownBook :=
  (existence_gate "B" " No, unfamiliar " 3 []).1.mpr (by decide)

/-- Witness for C6: a refusal containing no mid-sentence terminates the
run with the rights issue even though the reply does not start with no. -/
theorem rights_gate_witness :
    (mainRun "B" (Except.ok ("yes", 1) :: Except.ok ("I must say no", 2) :: [])).fst
      = RunResult.exitedRightsIssue :=
  (rights_gate "B" "yes" "I must say no" 1 2 [] (by decide)).1.mpr (by decide)

-- Digit-run extraction lemmas.

theorem firstDigitRun_none (l : List Char) :
    firstDigitRun l = none ↔ ∀ c ∈ l, c.isDigit = false := by
  induction l with
  | nil => simp [firstDigitRun]
  | cons c rest ih =>
    by_cases hc : c.isDigit = true
    · simp [firstDigitRun, hc]
    · simp only [Bool.not_eq_true] at hc
      simp [firstDigitRun, hc, ih]

theorem firstDigitRun_skip :
    ∀ pre : List Char, (∀ c ∈ pre, c.isDigit = false) → ∀ tail : List Char,
    firstDigitRun (pre ++ tail) = firstDigitRun tail := by
  intro pre
  induction pre with
  | nil => intro _ tail; rfl
  | cons a pre2 ih =>
    intro h tail
    have ha : a.isDigit = false := h a (List.mem_cons_self a pre2)
    simp [firstDigitRun, ha, ih (fun c hc => h c (List.mem_cons_of_mem a hc)) tail]

theorem takeWhile_all_append (p : Char → Bool) (m : List Char)
    (hm : ∀ c ∈ m.head?, p c = false) :
    ∀ l : List Char, (∀ c ∈ l, p c = true) → (l ++ m).takeWhile p = l := by
  intro l
  induction l with
  | nil =>
    intro _
    cases m with
    | nil => rfl
    | cons a m2 =>
      have ha : p a = false := hm a rfl
      simp [List.takeWhile, ha]
  | cons a l2 ih =>
    intro hl
    have ha : p a = true := hl a (List.mem_cons_self a l2)
    simp [List.takeWhile, ha, ih (fun c hc => hl c (List.mem_cons_of_mem a hc))]

/-- Claim C4: the chapter-count extraction fails exactly on texts with no
decimal digit; on a text made of a digit-free prefix, a maximal digit run,
and a remainder, it returns the number parsed from that first run; and in
the pipeline a parse failure is fatal, aborting after the count request
with no chapter request issued. -/
theorem chapter_count_extraction :
    (∀ s : String, extractChapterCount s = none ↔ ∀ c ∈ s.data, c.isDigit = false)
    ∧ (∀ pre run post : List Char, (∀ c ∈ pre, c.isDigit = false) → run ≠ [] →
        (∀ c ∈ run, c.isDigit = true) → (∀ c ∈ post.head?, c.isDigit = false) →
        extractChapterCount (String.mk (pre ++ run ++ post)) = some (digitsToNat run))
    ∧ (∀ (title kText rText cText : String) (kTok rTok cTok : Nat) (rest : List Response),
        List.isPrefixOf "no".data (pyLower (pyStrip kText)).data = false →
        hasSubstr "no".data (pyLower (pyStrip rText)).data = false →
        extractChapterCount (pyStrip cText) = none →
        mainRun title (Except.ok (kText, kTok) :: Except.ok (rText, rTok)
            :: Except.ok (cText, cTok) :: rest)
          = (RunResult.parseError (pyStrip cText) cTok,
              [knowsRequest title, rightsRequest title, countRequest title])) := by
  refine ⟨?_, ?_, ?_⟩
  · intro s
    rw [extractChapterCount, Option.map_eq_none', firstDigitRun_none]
  · intro pre run post hpre hne hrun hpost
    cases run with
    | nil => exact absurd rfl hne
    | cons c cs =>
      have hc : c.isDigit = true := hrun c (List.mem_cons_self c cs)
      have hcs : ∀ d ∈ cs, d.isDigit = true := fun d hd => hrun d (List.mem_cons_of_mem c hd)
      have hskip := firstDigitRun_skip pre hpre (c :: cs ++ post)
      have htake := takeWhile_all_append Char.isDigit post hpost cs hcs
      rw [extractChapterCount]
      rw [show (String.mk (pre ++ (c :: cs) ++ post)).data = pre ++ (c :: cs ++ post) by
        simp [List.append_assoc]]
      rw [hskip]
      simp [firstDigitRun, hc, htake]
  · intro title kT rT cT kTok rTok cTok rest hk hr hc
    simp [mainRun, rightsStage, countStage, takeResp, hk, hr, hc]

/-- Witness for C4: prose around the digits 24 parses to that number. -/
theorem chapter_count_extraction_witness :
    extractChapterCount (String.mk ("The book has ".data ++ "24".data ++ " chapters.".data))
      = some (digitsToNat "24".data) :=
  chapter_count_extraction.2.1 "The book has ".data "24".data " chapters.".data
    (by decide) (by decide) (by decide) (by decide)

-- Inversion of a completed run.

theorem filesWritten_mem (res : RunResult) (rep : Report) (h : rep ∈ filesWritten res) :
    ∃ tt, res = RunResult.done rep tt := by
  cases res <;> simp [filesWritten] at h
  case done rep2 tt2 => exact ⟨tt2, by rw [h]⟩

theorem mainRun_done_shape (title : String) (rs : List Response) (rep : Report) (tt : Nat)
    (h : (mainRun title rs).fst = RunResult.done rep tt) :
    ∃ kp rp cp rest2 n,
      rs = Except.ok kp :: Except.ok rp :: Except.ok cp :: rest2
      ∧ extractChapterCount (pyStrip cp.fst) = some n
      ∧ rep.chapters.length = n
      ∧ rep.chapters.map (fun r => r.index) = List.range' 1 n := by
  cases rs with
  | nil => simp [mainRun, takeResp, failOf] at h
  | cons r0 rs1 =>
    cases r0 with
    | error f => simp [mainRun, takeResp, failOf] at h
    | ok kp =>
      obtain ⟨kT, kTok⟩ := kp
      by_cases hk : List.isPrefixOf "no".data (pyLower (pyStrip kT)).data = true
      · simp [mainRun, takeResp, hk] at h
      · simp only [Bool.not_eq_true] at hk
        have hmain : (mainRun title (Except.ok (kT, kTok) :: rs1)).fst
            = (rightsStage title kTok rs1).fst := by
          simp [mainRun, takeResp, hk]
        rw [hmain] at h
        cases rs1 with
        | nil => simp [rightsStage, takeResp, failOf] at h
        | cons r1 rs2 =>
          cases r1 with
          | error f => simp [rightsStage, takeResp, failOf] at h
          | ok rp =>
            obtain ⟨rT, rTok⟩ := rp
            by_cases hr : hasSubstr "no".data (pyLower (pyStrip rT)).data = true
            · simp [rightsStage, takeResp, hr] at h
            · simp only [Bool.not_eq_true] at hr
              have hstage : (rightsStage title kTok (Except.ok (rT, rTok) :: rs2)).fst
                  = (countStage title (kTok + rTok) rs2).fst := by
                simp [rightsStage, takeResp, hr]
              rw [hstage] at h
              cases rs2 with
              | nil => simp [countStage, takeResp, failOf] at h
              | cons r2 rs3 =>
                cases r2 with
                | error f => simp [countStage, takeResp, failOf] at h
                | ok cp =>
                  obtain ⟨cT, cTok⟩ := cp
                  rcases hx : extractChapterCount (pyStrip cT) with _ | n
                  · simp [countStage, takeResp, hx] at h
                  · have hcs : (countStage title (kTok + rTok)
                          (Except.ok (cT, cTok) :: rs3)).fst
                        = (loopStage title n (kTok + rTok) rs3).fst := by
                      simp [countStage, takeResp, hx]
                    rw [hcs] at h
                    rcases hcl : chapterLoop title 1 n rs3 (kTok + rTok) [] with ⟨lr, reqs⟩
                    cases lr with
                    | ok recs ttf =>
                      have hdone : (loopStage title n (kTok + rTok) rs3).fst
                          = RunResult.done ⟨title, recs⟩ ttf := by
                        simp [loopStage, hcl]
                      rw [hdone] at h
                      have hrep : rep = ⟨title, recs⟩ := (RunResult.done.inj h.symm).1
                      have hidx := chapterLoop_ok_index title n 1 rs3 (kTok + rTok) [] recs ttf
                        (by rw [hcl])
                      simp only [List.map_nil, List.nil_append] at hidx
                      refine ⟨(kT, kTok), (rT, rTok), (cT, cTok), rs3, n, rfl, hx, ?_, ?_⟩
                      · rw [hrep]
                        have hlen : recs.length = (recs.map (fun r => r.index)).length := by simp
                        rw [show (⟨title, recs⟩ : Report).chapters = recs from rfl, hlen, hidx]
                        simp
                      · rw [hrep]
                        exact hidx
                    | fatal f => simp [loopStage, hcl] at h
                    | exhausted => simp [loopStage, hcl] at h

/-- Claim C3: a run writes at most one report, and any written report
comes from a run whose first three logical requests succeeded, whose
chapter count parsed to some n, and whose report holds exactly n chapter
records with indices 1..n in order; every early or fatal termination
writes nothing. -/
theorem report_write_discipline (title : String) (rs : List Response) :
    (filesWritten (mainRun title rs).fst).length ≤ 1
    ∧ ∀ rep ∈ filesWritten (mainRun title rs).fst,
        ∃ tt kp rp cp rest2 n,
          (mainRun title rs).fst = RunResult.done rep tt
          ∧ rs = Except.ok kp :: Except.ok rp :: Except.ok cp :: rest2
          ∧ extractChapterCount (pyStrip cp.fst) = some n
          ∧ rep.chapters.length = n
          ∧ rep.chapters.map (fun r => r.index) = List.range' 1 n := by
  constructor
  · cases hres : (mainRun title rs).fst <;> simp [filesWritten]
  · intro rep hmem
    obtain ⟨tt, hdone⟩ := filesWritten_mem _ rep hmem
    obtain ⟨kp, rp, cp, rest2, n, h1, h2, h3, h4⟩ := mainRun_done_shape title rs rep tt hdone
    exact ⟨tt, kp, rp, cp, rest2, n, hdone, h1, h2, h3, h4⟩

/-- Witness for C3: a fully successful one-chapter run writes its report,
and the theorem recovers the structure of that run. -/
theorem report_write_discipline_witness :
    ∃ tt kp rp cp rest2 n,
      (mainRun "B" ([Except.ok ("yes", 1), Except.ok ("yes", 2), Except.ok ("1", 7),
          Except.ok ("t", 3), Except.ok ("b", 4)] : List Response)).fst
        = RunResult.done ⟨"B", [⟨1, "t", "b", 4⟩]⟩ tt
      ∧ ([Except.ok ("yes", 1), Except.ok ("yes", 2), Except.ok ("1", 7),
          Except.ok ("t", 3), Except.ok ("b", 4)] : List Response)
          = Except.ok kp :: Except.ok rp :: Except.ok cp :: rest2
      ∧ extractChapterCount (pyStrip cp.fst) = some n
      ∧ (⟨"B", [⟨1, "t", "b", 4⟩]⟩ : Report).chapters.length = n
      ∧ (⟨"B", [⟨1, "t", "b", 4⟩]⟩ : Report).chapters.map (fun r => r.index)
          = List.range' 1 n :=
  (report_write_discipline "B" ([Except.ok ("yes", 1), Except.ok ("yes", 2),
      Except.ok ("1", 7), Except.ok ("t", 3), Except.ok ("b", 4)] : List Response)).2
    ⟨"B", [⟨1, "t", "b", 4⟩]⟩ (by decide)

-- Fully successful run.

theorem mainRun_full_success (title kText rText cText : String) (kTok rTok cTok n : Nat)
    (bodies : List ((String × Nat) × (String × Nat)))
    (hk : List.isPrefixOf "no".data (pyLower (pyStrip kText)).data = false)
    (hr : hasSubstr "no".data (pyLower (pyStrip rText)).data = false)
    (hc : extractChapterCount (pyStrip cText) = some n)
    (hlen : bodies.length = n) :
    mainRun title (Except.ok (kText, kTok) :: Except.ok (rText, rTok)
        :: Except.ok (cText, cTok) :: pairsToResponses bodies)
      = (RunResult.done ⟨title, chapterRecordsOf 1 bodies⟩ (kTok + rTok + pairTokens bodies),
          knowsRequest title :: rightsRequest title :: countRequest title
            :: chapterRequests title 1 n) := by
  have hloop := chapterLoop_success title bodies 1 (kTok + rTok) [] []
  rw [List.append_nil, hlen] at hloop
  have hls : loopStage title n (kTok + rTok) (pairsToResponses bodies)
      = (RunResult.done ⟨title, chapterRecordsOf 1 bodies⟩ (kTok + rTok + pairTokens bodies),
          chapterRequests title 1 n) := by
    rw [loopStage, hloop]
    simp [Nat.add_assoc]
  have hcs : countStage title (kTok + rTok)
        (Except.ok (cText, cTok) :: pairsToResponses bodies)
      = (RunResult.done ⟨title, chapterRecordsOf 1 bodies⟩ (kTok + rTok + pairTokens bodies),
          countRequest title :: chapterRequests title 1 n) := by
    simp [countStage, takeResp, hc, hls]
  have hrs : rightsStage title kTok (Except.ok (rText, rTok)
        :: Except.ok (cText, cTok) :: pairsToResponses bodies)
      = (RunResult.done ⟨title, chapterRecordsOf 1 bodies⟩ (kTok + rTok + pairTokens bodies),
          rightsRequest title :: countRequest title :: chapterRequests title 1 n) := by
    simp [rightsStage, takeResp, hr, hcs]
  simp [mainRun, takeResp, hk, hrs]

/-- Claim C7: when the existence and rights checks are affirmative and the
count resolves to n, a run whose n chapters all succeed completes with
exactly n chapter records indexed 1..n in increasing order with no gaps,
the requests being the three checks followed by, per chapter in sequence,
one title request then one detailed-summary request carrying the distinct
summarizer persona. -/
theorem pipeline_chapter_structure (title kText rText cText : String)
    (kTok rTok cTok n : Nat) (bodies : List ((String × Nat) × (String × Nat)))
    (hk : List.isPrefixOf "no".data (pyLower (pyStrip kText)).data = false)
    (hr : hasSubstr "no".data (pyLower (pyStrip rText)).data = false)
    (hc : extractChapterCount (pyStrip cText) = some n)
    (hlen : bodies.length = n) :
    mainRun title (Except.ok (kText, kTok) :: Except.ok (rText, rTok)
        :: Except.ok (cText, cTok) :: pairsToResponses bodies)
      = (RunResult.done ⟨title, chapterRecordsOf 1 bodies⟩ (kTok + rTok + pairTokens bodies),
          knowsRequest title :: rightsRequest title :: countRequest title
            :: chapterRequests title 1 n)
    ∧ (chapterRecordsOf 1 bodies).map (fun r => r.index) = List.range' 1 n
    ∧ (chapterRecordsOf 1 bodies).length = n
    ∧ summarySystem ≠ defaultSystem
    ∧ ∀ i : Nat, (titleRequest title i).system = defaultSystem
        ∧ (summaryRequest title i).system = summarySystem := by
  refine ⟨mainRun_full_success title kText rText cText kTok rTok cTok n bodies hk hr hc hlen,
    ?_, ?_, by decide, fun i => ⟨rfl, rfl⟩⟩
  · rw [chapterRecordsOf_index bodies 1, hlen]
  · have hmap := chapterRecordsOf_index bodies 1
    have : (chapterRecordsOf 1 bodies).length
        = ((chapterRecordsOf 1 bodies).map (fun r => r.index)).length := by simp
    rw [this, hmap, hlen]
    simp

/-- Witness for C7: a one-chapter fully successful run. -/
theorem pipeline_chapter_structure_witness :
    mainRun "B" (Except.ok ("yes", 1) :: Except.ok ("yes", 2) :: Except.ok ("1", 7)
        :: pairsToResponses [(("t", 3), ("b", 4))])
      = (RunResult.done ⟨"B", chapterRecordsOf 1 [(("t", 3), ("b", 4))]⟩
            (1 + 2 + pairTokens [(("t", 3), ("b", 4))]),
          knowsRequest "B" :: rightsRequest "B" :: countRequest "B"
            :: chapterRequests "B" 1 1)
    ∧ (chapterRecordsOf 1 [(("t", 3), ("b", 4))]).map (fun r => r.index) = List.range' 1 1
    ∧ (chapterRecordsOf 1 [(("t", 3), ("b", 4))]).length = 1
    ∧ summarySystem ≠ defaultSystem
    ∧ ∀ i : Nat, (titleRequest "B" i).system = defaultSystem
        ∧ (summaryRequest "B" i).system = summarySystem :=
  pipeline_chapter_structure "B" "yes" "yes" "1" 1 2 7 1 [(("t", 3), ("b", 4))]
    (by decide) (by decide) (by decide) (by decide)

/-- Claim C9: the derived filename keeps length and positions, replaces
every character outside the alphanumeric-space-underscore-hyphen set with
an underscore, keeps characters inside the set unchanged, and carries the
fixed suffix. -/
theorem filename_sanitization (title : String) (i : Nat) :
    (sanitize title).length = title.length
    ∧ (sanitize title).data[i]? = (title.data[i]?).map (fun c =>
        if c.isAlphanum || c = ' ' || c = '_' || c = '-' then c else '_')
    ∧ outPath title = sanitize title ++ "_summaries.txt" := by
  refine ⟨?_, ?_, rfl⟩
  · exact List.length_map title.data _
  · exact List.getElem?_map _ title.data i

/-- Claim C10, counterexample: in a completed run whose count request cost
7 tokens, the session total is 10, not the 17 that would include them: the
count-request tokens are not added to the total. -/
theorem token_total_counterexample :
    (mainRun "B" ([Except.ok ("yes", 1), Except.ok ("yes", 2), Except.ok ("1", 7),
        Except.ok ("t", 3), Except.ok ("b", 4)] : List Response)).fst
      = RunResult.done ⟨"B", [⟨1, "t", "b", 4⟩]⟩ 10
    ∧ (10 : Nat) ≠ 1 + 2 + 7 + 3 + 4 := by
  constructor
  · decide
  · decide

/-- Claim C10 as amended: each chapter record counts only its
detailed-summary tokens, and the session total sums the existence-check,
rights-check, chapter-title and chapter-summary tokens — the chapter-count
request tokens are never added. -/
theorem token_accounting (title kText rText cText : String)
    (kTok rTok cTok n : Nat) (bodies : List ((String × Nat) × (String × Nat)))
    (hk : List.isPrefixOf "no".data (pyLower (pyStrip kText)).data = false)
    (hr : hasSubstr "no".data (pyLower (pyStrip rText)).data = false)
    (hc : extractChapterCount (pyStrip cText) = some n)
    (hlen : bodies.length = n) :
    (mainRun title (Except.ok (kText, kTok) :: Except.ok (rText, rTok)
        :: Except.ok (cText, cTok) :: pairsToResponses bodies)).fst
      = RunResult.done ⟨title, chapterRecordsOf 1 bodies⟩ (kTok + rTok + pairTokens bodies)
    ∧ (chapterRecordsOf 1 bodies).map (fun r => r.tokens) = bodies.map (fun p => p.snd.snd)
    ∧ pairTokens bodies = (bodies.map (fun p => p.fst.snd + p.snd.snd)).sum := by
  refine ⟨?_, chapterRecordsOf_tokens bodies 1, pairTokens_sum bodies⟩
  rw [mainRun_full_success title kText rText cText kTok rTok cTok n bodies hk hr hc hlen]

/-- Witness for the amended C10: a one-chapter run with count tokens 7. -/
theorem token_accounting_witness :
    (mainRun "B" (Except.ok ("yes", 1) :: Except.ok ("yes", 2) :: Except.ok ("1", 7)
        :: pairsToResponses [(("t", 3), ("b", 4))])).fst
      = RunResult.done ⟨"B", chapterRecordsOf 1 [(("t", 3), ("b", 4))]⟩
          (1 + 2 + pairTokens [(("t", 3), ("b", 4))])
    ∧ (chapterRecordsOf 1 [(("t", 3), ("b", 4))]).map (fun r => r.tokens)
        = [(("t", 3), ("b", 4))].map (fun p => p.snd.snd)
    ∧ pairTokens [(("t", 3), ("b", 4))]
        = ([(("t", 3), ("b", 4))].map (fun p => p.fst.snd + p.snd.snd)).sum :=
  token_accounting "B" "yes" "yes" "1" 1 2 7 1 [(("t", 3), ("b", 4))]
    (by decide) (by decide) (by decide) (by decide)
